import Mathlib

/-!
Verification of the sale-finalization flow of the `sucesso` point-of-sale
repository.  The definitions below are a shallow embedding of:

* `src/server/database/connection.js` — `Database.transaction` (sequential
  statement execution with rollback on any failure);
* `src/server/routes/sales.js` — `safeQuery`, the list-sales fallback read,
  and the create-sale handler `router.post('/')`;
* `src/server/routes/business.js` — the list-businesses handler;
* `src/src/components/EnhancedPDV.tsx` — the cart operations `addToCart`,
  `updateCartItemQuantity`, `removeFromCart`, `clearCart`, `calculateTotal`
  and the client-side `finalizeSale`.

Money amounts are modelled as rationals (JS numbers used as decimals),
quantities as naturals, stock counts as integers.  A throwing SQL statement
is modelled by an `Option ℕ` failure index; `none` is returned by an
operation that throws.
-/

namespace Sucesso

/-- Server-side sale row: the `saleData` object built in
`routes/sales.js` (also the row shape of the `sales` table). -/
structure SaleRec where
  id : String
  business_id : String
  user_id : String
  total : ℚ
  discount : ℚ
  payment_method : String
  customer_name : String
  status : String
  created_at : String
  deriving DecidableEq, Repr

/-- Server-side sale-item row (`sale_items` table / `fallbackSaleItems`). -/
structure SaleItemRec where
  id : String
  sale_id : String
  product_id : String
  quantity : ℕ
  price : ℚ
  total : ℚ
  deriving DecidableEq, Repr

/-- Server-side product row; only the fields relevant to the claims. -/
structure ProductRec where
  id : String
  business_id : String
  stock : Int
  price : ℚ
  deriving DecidableEq, Repr

/-- Server-side stock-movement row. -/
structure MovementRec where
  product_id : String
  mtype : String
  quantity : ℕ
  reason : String
  deriving DecidableEq, Repr

/-- Business (tenant) row, from `routes/business.js`. -/
structure BusinessRec where
  id : String
  name : String
  deriving DecidableEq, Repr

/-- One backing store (either the persistent database or the in-process
fallback collections).  Both mirror the same record shapes. -/
structure Store where
  sales : List SaleRec
  saleItems : List SaleItemRec
  products : List ProductRec
  movements : List MovementRec
  deriving DecidableEq, Repr

/-- The empty store. -/
def emptyStore : Store := ⟨[], [], [], []⟩

/-- Which backing store actually ran during a `safeQuery` call. -/
inductive Backend
  | persistent
  | fallback
  deriving DecidableEq, Repr

/-- Result of a `safeQuery` call: both stores after the call, the returned
value, and the ordered list of backends that were attempted. -/
structure SQResult (α : Type) where
  ps : Store
  fs : Store
  value : α
  attempted : List Backend

/-- Embedding of `safeQuery` from `routes/sales.js` lines 13–22 (the same
helper is repeated verbatim in every route file):

* when `database.pool` is set, the persistent operation is attempted; if it
  succeeds its result is returned;
* when the persistent operation throws (`op` returns `none`; a failed
  `Database.transaction` has rolled back, so the persistent store is left
  unchanged), the error is caught and the fallback operation runs;
* when no pool handle exists, the fallback operation runs directly.

The `pool` flag is read at each call — there is no cached decision. -/
def safeQuery {α : Type} (pool : Bool) (op : Store → Option (Store × α))
    (fb : Store → Store × α) (ps fs : Store) : SQResult α :=
  if pool then
    match op ps with
    | some (ps2, a) => ⟨ps2, fs, a, [Backend.persistent]⟩
    | none =>
        let r := fb fs
        ⟨ps, r.1, r.2, [Backend.persistent, Backend.fallback]⟩
  else
    let r := fb fs
    ⟨ps, r.1, r.2, [Backend.fallback]⟩

/-- Embedding of `Database.transaction` (`connection.js` lines 137–165):
statements run in order; if any statement throws the whole transaction
returns `none` (the JS code issues `ROLLBACK` and rethrows, so the caller
observes the pre-transaction store). -/
def transaction : List (Store → Option Store) → Store → Option Store
  | [], s => some s
  | stmt :: rest, s =>
    match stmt s with
    | some s2 => transaction rest s2
    | none => none

/-- Attach a failure point to a list of (otherwise successful) SQL
statements: statement `i` throws when the failure index is `some i`. -/
def withFailure : List (Store → Store) → Option ℕ → List (Store → Option Store)
  | [], _ => []
  | f :: rest, none => (fun s => some (f s)) :: withFailure rest none
  | _ :: rest, some 0 => (fun _ => none) :: withFailure rest none
  | f :: rest, some (i + 1) => (fun s => some (f s)) :: withFailure rest (some i)

/-- One item of the create-sale request body (`req.body.items`). -/
structure SaleItemReq where
  productId : String
  quantity : ℕ
  price : ℚ
  deriving DecidableEq, Repr

/-- Create-sale request body (`req.body` of `POST /api/sales`).  A missing
`items` field is modelled as the empty list (both are rejected alike). -/
structure SaleReq where
  items : List SaleItemReq
  paymentMethod : Option String
  customerName : Option String
  discount : Option ℚ

/-- Embedding of `items.reduce((sum, item) => sum + (item.price * item.quantity), 0)`
(`routes/sales.js` line 68). -/
def computeTotal (items : List SaleItemReq) : ℚ :=
  items.foldl (fun sum item => sum + item.price * item.quantity) 0

/-- The `saleData` object of `routes/sales.js` lines 71–81. -/
def mkSale (businessId userId saleId now : String) (req : SaleReq) : SaleRec :=
  { id := saleId
    business_id := businessId
    user_id := userId
    total := computeTotal req.items - (req.discount.getD 0)
    discount := req.discount.getD 0
    payment_method := req.paymentMethod.getD "dinheiro"
    customer_name := req.customerName.getD ""
    status := "completed"
    created_at := now }

/-- The sale-item rows inserted for a request (one per item, each with a
fresh id; `routes/sales.js` lines 92–95 and 100–109). -/
def mkSaleItems (saleId : String) (items : List SaleItemReq) : List SaleItemRec :=
  items.enum.map (fun p =>
    { id := saleId ++ "-item-" ++ toString p.1
      sale_id := saleId
      product_id := p.2.productId
      quantity := p.2.quantity
      price := p.2.price
      total := p.2.price * p.2.quantity })

/-- The statement list passed to `database.transaction` by the create-sale
handler: one `INSERT INTO sales` followed by one `INSERT INTO sale_items`
per item (`routes/sales.js` lines 86–96). -/
def saleStatements (sale : SaleRec) (items : List SaleItemRec) : List (Store → Store) :=
  (fun s => { s with sales := s.sales ++ [sale] }) ::
    items.map (fun it => fun s => { s with saleItems := s.saleItems ++ [it] })

/-- The fallback branch of the create-sale handler: push the sale onto
`fallbackSales` and each item onto `fallbackSaleItems`
(`routes/sales.js` lines 98–110). -/
def fallbackCreateSale (sale : SaleRec) (items : List SaleItemRec) (s : Store) : Store :=
  { s with sales := s.sales ++ [sale], saleItems := s.saleItems ++ items }

/-- HTTP response of the create-sale handler. -/
structure SaleResponse where
  status : ℕ
  body : Option SaleRec
  deriving DecidableEq, Repr

/-- Embedding of the create-sale handler `router.post('/')` of
`routes/sales.js` lines 58–118.  `pool` is whether `database.pool` is set
at call time; `failIdx = some i` makes the `i`-th transaction statement
throw.  Returns the persistent store, the fallback store, and the HTTP
response. -/
def postSale (pool : Bool) (failIdx : Option ℕ)
    (businessId userId saleId now : String) (req : SaleReq)
    (ps fs : Store) : Store × Store × SaleResponse :=
  if req.items.isEmpty then
    (ps, fs, ⟨400, none⟩)
  else
    let sale := mkSale businessId userId saleId now req
    let items := mkSaleItems saleId req.items
    let r := safeQuery pool
      (fun s => (transaction (withFailure (saleStatements sale items) failIdx) s).map
        (fun s2 => (s2, ())))
      (fun s => (fallbackCreateSale sale items s, ()))
      ps fs
    (r.ps, r.fs, ⟨201, some sale⟩)

/-- Fallback branch of the list-sales handler (`routes/sales.js` lines
40–47): filter `fallbackSales` by the requester's business id and decorate
each sale with its `items_count`. -/
def listSalesFallback (businessId : String) (fs : Store) : List (SaleRec × ℕ) :=
  (fs.sales.filter (fun s => s.business_id == businessId)).map
    (fun s => (s, (fs.saleItems.filter (fun si => si.sale_id == s.id)).length))

/-- Fallback branch of the list-businesses handler (`routes/business.js`
lines 34–40): a super-admin sees every business, anyone else only their
own. -/
def listBusinessesFallback (role businessId : String)
    (bs : List BusinessRec) : List BusinessRec :=
  if role == "super_admin" then bs
  else bs.filter (fun b => b.id == businessId)

/-- Client-side product (`src/types`, as used by `EnhancedPDV.tsx`). -/
structure Product where
  id : String
  name : String
  price : ℚ
  stock : Int
  deriving DecidableEq, Repr

/-- Client-side cart line (`CartItem` of `EnhancedPDV.tsx`): a `SaleItem`
plus the product snapshot it was created from. -/
structure CartItem where
  productId : String
  productName : String
  quantity : ℕ
  unitPrice : ℚ
  total : ℚ
  product : Product
  deriving DecidableEq, Repr

/-- Embedding of `addToCart` (`EnhancedPDV.tsx` lines 148–200).  The
boolean is `true` when the insufficient-stock warning was shown (in which
case the cart is unchanged). -/
def addToCart (cart : List CartItem) (p : Product) (quantity : ℕ) :
    List CartItem × Bool :=
  if p.stock < (quantity : Int) then (cart, true)
  else
    match cart.find? (fun item => item.productId == p.id) with
    | some item =>
      let newQuantity := item.quantity + quantity
      if p.stock < (newQuantity : Int) then (cart, true)
      else
        (cart.map (fun it =>
          if it.productId == p.id then
            { it with quantity := newQuantity,
                      total := (newQuantity : ℚ) * it.unitPrice }
          else it), false)
    | none =>
      (cart ++ [{ productId := p.id, productName := p.name,
                  quantity := quantity, unitPrice := p.price,
                  total := (quantity : ℚ) * p.price, product := p }], false)

/-- Embedding of `removeFromCart` (`EnhancedPDV.tsx` lines 233–235). -/
def removeFromCart (cart : List CartItem) (productId : String) : List CartItem :=
  cart.filter (fun item => item.productId != productId)

/-- Embedding of `updateCartItemQuantity` (`EnhancedPDV.tsx` lines
202–231).  `newQuantity` is an `Int` because the UI can request `quantity
- 1` from any line.  The boolean is `true` when the insufficient-stock
warning was shown (cart unchanged in that case). -/
def updateCartItemQuantity (cart : List CartItem) (productId : String)
    (newQuantity : Int) : List CartItem × Bool :=
  if newQuantity ≤ 0 then (removeFromCart cart productId, false)
  else
    match cart.find? (fun item => item.productId == productId) with
    | none => (cart, false)
    | some item =>
      if item.product.stock < newQuantity then (cart, true)
      else
        (cart.map (fun it =>
          if it.productId == productId then
            { it with quantity := newQuantity.toNat,
                      total := (newQuantity : ℚ) * it.unitPrice }
          else it), false)

/-- Embedding of `clearCart` (`EnhancedPDV.tsx` lines 237–246). -/
def clearCart : List CartItem := []

/-- Embedding of `calculateTotal` (`EnhancedPDV.tsx` lines 280–282). -/
def calculateTotal (cart : List CartItem) : ℚ :=
  cart.foldl (fun total item => total + item.total) 0

/-- Modelled from the spec: the `useProducts().updateStock(productId,
newStock)` hook is not part of the source snapshot; per §4.2 step 3 it sets
the product's stock field to the given value. -/
def updateStock (products : List Product) (productId : String)
    (newStock : Int) : List Product :=
  products.map (fun p => if p.id == productId then { p with stock := newStock } else p)

/-- Modelled from the spec: the `useStockMovements().addMovement` hook is
not part of the source snapshot; per §4.2 step 3 it appends one
stock-movement ledger record. -/
def addMovement (movements : List MovementRec) (m : MovementRec) :
    List MovementRec :=
  movements ++ [m]

/-- Client state visible to `finalizeSale`: the cart, the product list
(whose stock fields `updateStock` mutates) and the movement ledger. -/
structure ClientState where
  cart : List CartItem
  products : List Product
  movements : List MovementRec
  deriving DecidableEq, Repr

/-- Result of a client `finalizeSale` call: the new client state, both
server stores, and whether a network call was made. -/
structure FinalizeResult where
  client : ClientState
  ps : Store
  fs : Store
  networkCalled : Bool
  deriving DecidableEq, Repr

/-- The create-sale request body sent by the client `finalizeSale`
(`EnhancedPDV.tsx` lines 289–299).  The `useSales().addSale` hook is
absent from the snapshot and is modelled from the spec as carrying the
item list and payment method to `POST /api/sales` unchanged; the server
reads each item's unit price from the `price` field. -/
def cartToReq (cart : List CartItem) (paymentMethod : String) : SaleReq :=
  { items := cart.map (fun it =>
      { productId := it.productId, quantity := it.quantity, price := it.unitPrice })
    paymentMethod := some paymentMethod
    customerName := none
    discount := none }

/-- Embedding of the client `finalizeSale` (`EnhancedPDV.tsx` lines
284–334) composed with the server create-sale handler.  On an empty cart
it returns immediately.  Otherwise it posts `cartToReq` of the cart, then,
the handler having responded 201, performs one `updateStock` call per line
using the product snapshot (`item.product.stock - item.quantity`), appends
one movement with type `saída` and reason `Venda - <paymentMethod>`, and
clears the cart. -/
def finalizeSale (cs : ClientState) (paymentMethod : String)
    (pool : Bool) (failIdx : Option ℕ)
    (businessId userId saleId now : String) (ps fs : Store) : FinalizeResult :=
  if cs.cart.isEmpty then ⟨cs, ps, fs, false⟩
  else
    let r := postSale pool failIdx businessId userId saleId now
      (cartToReq cs.cart paymentMethod) ps fs
    let products2 := cs.cart.foldl
      (fun prods it => updateStock prods it.productId (it.product.stock - (it.quantity : Int)))
      cs.products
    let movements2 := cs.cart.foldl
      (fun ms it => addMovement ms
        { product_id := it.productId, mtype := "saída", quantity := it.quantity,
          reason := "Venda - " ++ paymentMethod })
      cs.movements
    ⟨⟨[], products2, movements2⟩, r.1, r.2.1, true⟩

/-- Stock of a product in a client product list (0 when absent). -/
def stockOf (products : List Product) (productId : String) : Int :=
  match products.find? (fun p => p.id == productId) with
  | some p => p.stock
  | none => 0

/-- One cart mutation, for stating invariants over arbitrary operation
sequences. -/
inductive CartOp
  | add (p : Product) (quantity : ℕ)
  | setQty (productId : String) (newQuantity : Int)
  | remove (productId : String)
  | clear

/-- Apply one cart mutation (dropping the warning flag). -/
def applyOp (cart : List CartItem) : CartOp → List CartItem
  | .add p q => (addToCart cart p q).1
  | .setQty pid q => (updateCartItemQuantity cart pid q).1
  | .remove pid => removeFromCart cart pid
  | .clear => clearCart

/-- Run a sequence of cart mutations. -/
def runOps (cart : List CartItem) (ops : List CartOp) : List CartItem :=
  ops.foldl applyOp cart

/-- Cart invariant: product identifiers are pairwise distinct and every
line's total is its quantity times its unit-price snapshot. -/
def CartInv (cart : List CartItem) : Prop :=
  (cart.map (fun item => item.productId)).Nodup ∧
    ∀ item ∈ cart, item.total = (item.quantity : ℚ) * item.unitPrice

/-- One routed operation in a session, for the backend-selection claim:
the pool handle's presence at call time, whether the persistent operation
would throw, and the two operations' effects. -/
structure CallSpec where
  pool : Bool
  fails : Bool
  op : Store → Store
  fb : Store → Store

/-- Serve one routed operation through `safeQuery`. -/
def callOnce (ps fs : Store) (c : CallSpec) : SQResult Unit :=
  safeQuery c.pool
    (fun s => if c.fails then none else some (c.op s, ()))
    (fun s => (c.fb s, ())) ps fs

/-- Serve a whole session of routed operations, recording for each one
which backends were attempted. -/
def runCalls : Store → Store → List CallSpec → List (List Backend)
  | _, _, [] => []
  | ps, fs, c :: rest =>
    let r := callOnce ps fs c
    r.attempted :: runCalls r.ps r.fs rest

/-! ### Concrete inputs used by witnesses and counterexamples -/

/-- Witness request for claim C3: one 2-unit item at price 5, discount 3. -/
def reqW : SaleReq :=
  { items := [⟨"pw", 2, 5⟩], paymentMethod := none, customerName := none,
    discount := some 3 }

/-- A product with stock 5, for the C5 counterexample. -/
def productA : Product := { id := "p1", name := "A", price := 2, stock := 5 }

/-- A cart line holding one unit of `productA`. -/
def itemA : CartItem :=
  { productId := "p1", productName := "A", quantity := 1, unitPrice := 2,
    total := 2, product := productA }

/-- A one-line cart holding `productA` with quantity 1. -/
def cartA : List CartItem := [itemA]

/-- A product with stock 0, for the C6 counterexample. -/
def productZ : Product := { id := "p0", name := "Z", price := 5, stock := 0 }

/-- Client state holding `cartA`, for the C1 counterexample. -/
def clientA : ClientState := { cart := cartA, products := [productA], movements := [] }

/-- Result of finalizing `cartA` while the pool handle exists but the sale
transaction's first statement throws. -/
def finalizeAThrow : FinalizeResult :=
  finalizeSale clientA "dinheiro" true (some 0) "b1" "u1" "s1" "t0"
    emptyStore emptyStore

/-- Product `p1` of the C8 scenario: price 8.50, stock 10. -/
def p1W : Product := { id := "p1", name := "P1", price := 17/2, stock := 10 }

/-- Product `p2` of the C8 scenario: price 3.20, stock 5. -/
def p2W : Product := { id := "p2", name := "P2", price := 16/5, stock := 5 }

/-- The C8 cart: 2 × p1 at 8.50 and 1 × p2 at 3.20. -/
def cartC8 : List CartItem :=
  [ { productId := "p1", productName := "P1", quantity := 2, unitPrice := 17/2,
      total := 17, product := p1W },
    { productId := "p2", productName := "P2", quantity := 1, unitPrice := 16/5,
      total := 16/5, product := p2W } ]

/-- Client state holding the C8 cart. -/
def clientC8 : ClientState := { cart := cartC8, products := [p1W, p2W], movements := [] }

/-- Result of finalizing the C8 cart with payment method cash
(`dinheiro`), served by the fallback store. -/
def finalizeC8 : FinalizeResult :=
  finalizeSale clientC8 "dinheiro" false none "b1" "u1" "s1" "t0"
    emptyStore emptyStore

/-- A sale of tenant `b1`, for the C7 witness. -/
def saleT1 : SaleRec :=
  { id := "sA", business_id := "b1", user_id := "u1", total := 10, discount := 0,
    payment_method := "dinheiro", customer_name := "", status := "completed",
    created_at := "t0" }

/-- A sale of the other tenant `b2`, for the C7 witness. -/
def saleT2 : SaleRec :=
  { id := "sB", business_id := "b2", user_id := "u2", total := 7, discount := 0,
    payment_method := "pix", customer_name := "", status := "completed",
    created_at := "t1" }

/-- An item of `saleT2`, for the C7 witness. -/
def itemT2 : SaleItemRec :=
  { id := "iB", sale_id := "sB", product_id := "p9", quantity := 1, price := 7,
    total := 7 }

/-- A fallback store holding only tenant `b1` data, for the C7 witness. -/
def fsT1 : Store := { sales := [saleT1], saleItems := [], products := [], movements := [] }

/-- Two businesses, for the C7 witness. -/
def bsW : List BusinessRec := [⟨"b1", "X"⟩, ⟨"b2", "Y"⟩]

/-! ### Helper lemmas -/

/-- A transaction with no failing statement applies every statement in
order. -/
theorem transaction_withFailure_none (stmts : List (Store → Store)) (s : Store) :
    transaction (withFailure stmts none) s =
      some (stmts.foldl (fun st f => f st) s) := by
  induction stmts generalizing s with
  | nil => rfl
  | cons f rest ih => simp [withFailure, transaction, ih]

/-- A transaction whose failing statement lies inside the list throws. -/
theorem transaction_withFailure_some (stmts : List (Store → Store)) (i : ℕ) (s : Store)
    (h : i < stmts.length) :
    transaction (withFailure stmts (some i)) s = none := by
  induction stmts generalizing i s with
  | nil => simp at h
  | cons f rest ih =>
    cases i with
    | zero => rfl
    | succ j =>
      simpa [withFailure, transaction] using ih j (f s) (by simpa using h)

/-- Whenever a transaction succeeds, its result is the in-order application
of all statements. -/
theorem transaction_withFailure_eq_of_some (stmts : List (Store → Store))
    (failIdx : Option ℕ) (s s2 : Store)
    (h : transaction (withFailure stmts failIdx) s = some s2) :
    s2 = stmts.foldl (fun st f => f st) s := by
  induction stmts generalizing failIdx s with
  | nil =>
    cases failIdx <;> simp [withFailure, transaction] at h <;> simp [h]
  | cons f rest ih =>
    cases failIdx with
    | none =>
      simp only [withFailure, transaction] at h
      exact ih none (f s) h
    | some i =>
      cases i with
      | zero => simp [withFailure, transaction] at h
      | succ j =>
        simp only [withFailure, transaction] at h
        exact ih (some j) (f s) h

/-- Applying the create-sale statement list appends the sale and its items
and touches nothing else. -/
theorem saleStatements_foldl (sale : SaleRec) (items : List SaleItemRec) (s : Store) :
    (saleStatements sale items).foldl (fun st f => f st) s =
      { s with sales := s.sales ++ [sale], saleItems := s.saleItems ++ items } := by
  have aux : ∀ (its : List SaleItemRec) (st : Store),
      (its.map (fun it => fun st => { st with saleItems := st.saleItems ++ [it] })).foldl
        (fun st f => f st) st = { st with saleItems := st.saleItems ++ its } := by
    intro its
    induction its with
    | nil => intro st; simp
    | cons it rest ih => intro st; simp [ih, List.append_assoc]
  simp [saleStatements, aux]

/-- Folding an addition over a list from an arbitrary start. -/
theorem foldl_add_eq {α : Type} (f : α → ℚ) (l : List α) (a : ℚ) :
    l.foldl (fun sum it => sum + f it) a = a + (l.map f).sum := by
  induction l generalizing a with
  | nil => simp
  | cons it rest ih => simp [ih, add_assoc]

/-- `computeTotal` is the sum of quantity times price. -/
theorem computeTotal_eq_sum (items : List SaleItemReq) :
    computeTotal items = (items.map (fun it => it.price * (it.quantity : ℚ))).sum := by
  simpa using foldl_add_eq (fun it => it.price * (it.quantity : ℚ)) items 0

/-! ### Claims -/

/-- Claim C3 (confirmed): for every non-empty item list, the sale persisted
by the create-sale handler has total `Σ (quantity × unit price) − discount`
with the discount defaulting to 0 when absent: the 201 response carries that
sale, the fallback path appends it to the fallback store, and a successful
persistent path appends it to the persistent store. -/
theorem C3_sale_total (pool : Bool) (failIdx : Option ℕ)
    (businessId userId saleId now : String) (req : SaleReq) (ps fs : Store)
    (h : req.items ≠ []) :
    (mkSale businessId userId saleId now req).total =
        (req.items.map (fun it => it.price * (it.quantity : ℚ))).sum -
          req.discount.getD 0 ∧
    (postSale pool failIdx businessId userId saleId now req ps fs).2.2 =
      ⟨201, some (mkSale businessId userId saleId now req)⟩ ∧
    (pool = false →
      (postSale pool failIdx businessId userId saleId now req ps fs).2.1.sales =
        fs.sales ++ [mkSale businessId userId saleId now req]) ∧
    (pool = true → failIdx = none →
      (postSale pool failIdx businessId userId saleId now req ps fs).1.sales =
        ps.sales ++ [mkSale businessId userId saleId now req]) := by
  have hne : req.items.isEmpty = false := by
    cases hi : req.items with
    | nil => exact absurd hi h
    | cons a l => rfl
  refine ⟨?_, ?_, ?_, ?_⟩
  · simp [mkSale, computeTotal_eq_sum]
  · simp [postSale, hne]
  · intro hp
    subst hp
    simp [postSale, hne, safeQuery, fallbackCreateSale]
  · intro hp hf
    subst hp; subst hf
    simp only [postSale, hne, Bool.false_eq_true, if_false, safeQuery, if_true,
      transaction_withFailure_none, Option.map_some]
    simp [saleStatements_foldl]

/-- Witness for claim C3 at a concrete request. -/
theorem C3_sale_total_witness :
    (mkSale "b1" "u1" "s1" "t0" reqW).total =
        (reqW.items.map (fun it => it.price * (it.quantity : ℚ))).sum -
          reqW.discount.getD 0 ∧
    (postSale false none "b1" "u1" "s1" "t0" reqW emptyStore emptyStore).2.2 =
      ⟨201, some (mkSale "b1" "u1" "s1" "t0" reqW)⟩ ∧
    (false = false →
      (postSale false none "b1" "u1" "s1" "t0" reqW emptyStore emptyStore).2.1.sales =
        emptyStore.sales ++ [mkSale "b1" "u1" "s1" "t0" reqW]) ∧
    (false = true → none = (none : Option ℕ) →
      (postSale false none "b1" "u1" "s1" "t0" reqW emptyStore emptyStore).1.sales =
        emptyStore.sales ++ [mkSale "b1" "u1" "s1" "t0" reqW]) :=
  C3_sale_total false none "b1" "u1" "s1" "t0" reqW emptyStore emptyStore (by decide)

/-- Claim C4 (confirmed): finalizing with an empty item list is rejected
before any write: the client `finalizeSale` on an empty cart makes no
network call and changes nothing, and the create-sale handler answers 400
and writes to neither store when the items array is missing or empty. -/
theorem C4_empty_rejected (cs : ClientState) (paymentMethod : String)
    (pool : Bool) (failIdx : Option ℕ)
    (businessId userId saleId now : String) (req : SaleReq) (ps fs : Store) :
    (cs.cart = [] →
      finalizeSale cs paymentMethod pool failIdx businessId userId saleId now ps fs =
        ⟨cs, ps, fs, false⟩) ∧
    (req.items = [] →
      postSale pool failIdx businessId userId saleId now req ps fs =
        (ps, fs, ⟨400, none⟩)) := by
  constructor
  · intro h
    simp [finalizeSale, h]
  · intro h
    simp [postSale, h]

/-- Witness for claim C4 at a concrete empty cart and empty request. -/
theorem C4_empty_rejected_witness :
    finalizeSale ⟨[], [], []⟩ "dinheiro" true none "b1" "u1" "s1" "t0"
        emptyStore emptyStore =
      ⟨⟨[], [], []⟩, emptyStore, emptyStore, false⟩ ∧
    postSale true none "b1" "u1" "s1" "t0" ⟨[], none, none, none⟩
        emptyStore emptyStore =
      (emptyStore, emptyStore, ⟨400, none⟩) :=
  ⟨(C4_empty_rejected ⟨[], [], []⟩ "dinheiro" true none "b1" "u1" "s1" "t0"
      ⟨[], none, none, none⟩ emptyStore emptyStore).1 rfl,
   (C4_empty_rejected ⟨[], [], []⟩ "dinheiro" true none "b1" "u1" "s1" "t0"
      ⟨[], none, none, none⟩ emptyStore emptyStore).2 rfl⟩

/-- Claim C10 (confirmed): the create-sale handler writes only the sale and
its sale items: for every request it accepts, neither store's products nor
its stock movements change, regardless of which backend served it or
whether the transaction threw. -/
theorem C10_no_stock_writes (pool : Bool) (failIdx : Option ℕ)
    (businessId userId saleId now : String) (req : SaleReq) (ps fs : Store)
    (h : req.items ≠ []) :
    (postSale pool failIdx businessId userId saleId now req ps fs).1.products =
        ps.products ∧
    (postSale pool failIdx businessId userId saleId now req ps fs).1.movements =
        ps.movements ∧
    (postSale pool failIdx businessId userId saleId now req ps fs).2.1.products =
        fs.products ∧
    (postSale pool failIdx businessId userId saleId now req ps fs).2.1.movements =
        fs.movements := by
  have hne : req.items.isEmpty = false := by
    cases hi : req.items with
    | nil => exact absurd hi h
    | cons a l => rfl
  cases pool with
  | false => simp [postSale, hne, safeQuery, fallbackCreateSale]
  | true =>
    rcases htx : transaction
        (withFailure (saleStatements (mkSale businessId userId saleId now req)
          (mkSaleItems saleId req.items)) failIdx) ps with _ | s2
    · simp [postSale, hne, safeQuery, htx, fallbackCreateSale]
    · have hs2 := transaction_withFailure_eq_of_some _ _ _ _ htx
      simp [postSale, hne, safeQuery, htx, hs2, saleStatements_foldl]

/-- Witness for claim C10 at a concrete accepted request. -/
theorem C10_no_stock_writes_witness :
    (postSale false none "b1" "u1" "s1" "t0" reqW emptyStore emptyStore).1.products =
        emptyStore.products ∧
    (postSale false none "b1" "u1" "s1" "t0" reqW emptyStore emptyStore).1.movements =
        emptyStore.movements ∧
    (postSale false none "b1" "u1" "s1" "t0" reqW emptyStore emptyStore).2.1.products =
        emptyStore.products ∧
    (postSale false none "b1" "u1" "s1" "t0" reqW emptyStore emptyStore).2.1.movements =
        emptyStore.movements :=
  C10_no_stock_writes false none "b1" "u1" "s1" "t0" reqW emptyStore emptyStore
    (by decide)

/-- A session serves as many traces as it has calls. -/
theorem runCalls_length (calls : List CallSpec) (ps fs : Store) :
    (runCalls ps fs calls).length = calls.length := by
  induction calls generalizing ps fs with
  | nil => rfl
  | cons c rest ih => simp [runCalls, ih]

/-- Claim C2 (confirmed): each routed operation decides between backends
fresh at that call: the persistent backend is attempted at call `i` exactly
when the pool handle exists at call `i`, and the fallback serves it exactly
when the handle is absent or the persistent operation throws — independent
of every earlier call, so after a mid-session reconnect the next operations
go to persistent storage. -/
theorem C2_fresh_decision (calls : List CallSpec) (ps fs : Store) (i : ℕ)
    (h : i < calls.length) (hlen : i < (runCalls ps fs calls).length) :
    (Backend.persistent ∈ (runCalls ps fs calls).get ⟨i, hlen⟩ ↔
        (calls.get ⟨i, h⟩).pool = true) ∧
    (Backend.fallback ∈ (runCalls ps fs calls).get ⟨i, hlen⟩ ↔
        ((calls.get ⟨i, h⟩).pool = false ∨ (calls.get ⟨i, h⟩).fails = true)) := by
  induction calls generalizing ps fs i with
  | nil => simp at h
  | cons c rest ih =>
    cases i with
    | zero =>
      cases hp : c.pool with
      | false =>
        simp [runCalls, callOnce, safeQuery, hp]
      | true =>
        cases hf : c.fails with
        | false => simp [runCalls, callOnce, safeQuery, hp, hf]
        | true => simp [runCalls, callOnce, safeQuery, hp, hf]
    | succ j =>
      have hj : j < rest.length := by simpa using h
      have hjlen : j < (runCalls (callOnce ps fs c).ps (callOnce ps fs c).fs rest).length := by
        rw [runCalls_length]; exact hj
      simpa [runCalls] using ih (callOnce ps fs c).ps (callOnce ps fs c).fs j hj hjlen

/-- Witness for claim C2: a two-call session that starts with no pool
handle and reconnects before the second call; the first call is served by
the fallback, the second attempts persistent storage. -/
theorem C2_fresh_decision_witness :
    (Backend.persistent ∈
        (runCalls emptyStore emptyStore
          [⟨false, false, id, id⟩, ⟨true, false, id, id⟩]).get ⟨1, by decide⟩ ↔
      (([⟨false, false, id, id⟩, ⟨true, false, id, id⟩] :
          List CallSpec).get ⟨1, by decide⟩).pool = true) ∧
    (Backend.fallback ∈
        (runCalls emptyStore emptyStore
          [⟨false, false, id, id⟩, ⟨true, false, id, id⟩]).get ⟨1, by decide⟩ ↔
      ((([⟨false, false, id, id⟩, ⟨true, false, id, id⟩] :
          List CallSpec).get ⟨1, by decide⟩).pool = false ∨
        (([⟨false, false, id, id⟩, ⟨true, false, id, id⟩] :
          List CallSpec).get ⟨1, by decide⟩).fails = true)) :=
  C2_fresh_decision [⟨false, false, id, id⟩, ⟨true, false, id, id⟩]
    emptyStore emptyStore 1 (by decide) (by simp [runCalls_length])

/-- Claim C7 (confirmed): the fallback list-sales read returns exactly the
sales whose tenant identifier equals the requester's; writing a sale (and
its items) for a different tenant leaves the result unchanged; and in the
business listing only a super-admin sees every tenant, anyone else only
their own. -/
theorem C7_tenant_isolation :
    (∀ (businessId : String) (fs : Store) (s : SaleRec),
        s ∈ (listSalesFallback businessId fs).map Prod.fst ↔
          (s ∈ fs.sales ∧ s.business_id = businessId)) ∧
    (∀ (businessId : String) (fs : Store) (sale : SaleRec)
        (newItems : List SaleItemRec),
        sale.business_id ≠ businessId →
        sale.id ∉ fs.sales.map (fun s => s.id) →
        (∀ si ∈ newItems, si.sale_id = sale.id) →
        listSalesFallback businessId
            { fs with sales := fs.sales ++ [sale],
                      saleItems := fs.saleItems ++ newItems } =
          listSalesFallback businessId fs) ∧
    (∀ (role businessId : String) (bs : List BusinessRec),
        (role ≠ "super_admin" →
          ∀ b ∈ listBusinessesFallback role businessId bs, b.id = businessId) ∧
        (role = "super_admin" → listBusinessesFallback role businessId bs = bs)) := by
  refine ⟨?_, ?_, ?_⟩
  · intro bid fs s
    simp [listSalesFallback, List.mem_filter, List.map_map, Function.comp]
  · intro bid fs sale newItems hbid hid hitems
    unfold listSalesFallback
    have hfilter : ((fs.sales ++ [sale]).filter (fun s => s.business_id == bid)) =
        fs.sales.filter (fun s => s.business_id == bid) := by
      rw [List.filter_append]
      simp [hbid]
    simp only [hfilter]
    apply List.map_congr_left
    intro s hs
    have hsmem : s ∈ fs.sales := (List.mem_filter.mp hs).1
    have hsid : ¬ s.id = sale.id := by
      intro he
      exact hid (by rw [← he]; exact List.mem_map_of_mem _ hsmem)
    have hnil : newItems.filter (fun si => si.sale_id == s.id) = [] := by
      rw [List.filter_eq_nil_iff]
      intro si hsi
      simp [hitems si hsi]
      exact fun he => hsid he.symm
    rw [List.filter_append, hnil, List.append_nil]
  · intro role bid bs
    constructor
    · intro hrole b hb
      have hne : (role == "super_admin") = false := by
        simp [hrole]
      simp only [listBusinessesFallback, hne, Bool.false_eq_true, if_false] at hb
      have := (List.mem_filter.mp hb).2
      simpa using this
    · intro hrole
      simp [listBusinessesFallback, hrole]

/-- Witness for claim C7: appending the other tenant's sale and item does
not change tenant `b1`'s fallback listing, and a non-super-admin only sees
their own business. -/
theorem C7_tenant_isolation_witness :
    listSalesFallback "b1"
        { fsT1 with sales := fsT1.sales ++ [saleT2],
                    saleItems := fsT1.saleItems ++ [itemT2] } =
      listSalesFallback "b1" fsT1 ∧
    ∀ b ∈ listBusinessesFallback "admin" "b1" bsW, b.id = "b1" :=
  ⟨C7_tenant_isolation.2.1 "b1" fsT1 saleT2 [itemT2] (by decide) (by decide)
      (by decide),
   (C7_tenant_isolation.2.2 "admin" "b1" bsW).1 (by decide)⟩

/-- Claim C5 counterexample (refuting the clamping part): with a line at
quantity 1 and product stock 5, requesting quantity 10 leaves the quantity
at 1 — the code warns and rejects, it does not clamp the quantity to the
available stock 5. -/
theorem C5_no_clamp_counterexample :
    (updateCartItemQuantity cartA "p1" 10).1 = cartA ∧
    (updateCartItemQuantity cartA "p1" 10).2 = true ∧
    (updateCartItemQuantity cartA "p1" 10).1.map (fun it => it.quantity) ≠
      [productA.stock.toNat] := by decide

/-- Claim C5 (corrected): `setQuantity` removes the line when the new
quantity is ≤ 0; for a positive new quantity within the line's product
stock it sets that quantity and recomputes the line total; and when the
requested quantity exceeds stock it warns and leaves the cart unchanged
(it does not clamp). -/
theorem C5_setQuantity_behavior (cart : List CartItem) (productId : String)
    (newQuantity : Int) :
    (newQuantity ≤ 0 →
      updateCartItemQuantity cart productId newQuantity =
        (cart.filter (fun it => it.productId != productId), false)) ∧
    (∀ item, 0 < newQuantity →
      cart.find? (fun it => it.productId == productId) = some item →
      ((item.product.stock < newQuantity →
          updateCartItemQuantity cart productId newQuantity = (cart, true)) ∧
       (newQuantity ≤ item.product.stock →
          updateCartItemQuantity cart productId newQuantity =
            (cart.map (fun it =>
              if it.productId == productId then
                { it with quantity := newQuantity.toNat,
                          total := (newQuantity : ℚ) * it.unitPrice }
              else it), false)))) := by
  constructor
  · intro h
    simp [updateCartItemQuantity, h, removeFromCart]
  · intro item hpos hfind
    have hnle : ¬ newQuantity ≤ 0 := not_le.mpr hpos
    constructor
    · intro hstock
      simp [updateCartItemQuantity, hnle, hfind, hstock]
    · intro hstock
      have hnlt : ¬ item.product.stock < newQuantity := not_lt.mpr hstock
      simp [updateCartItemQuantity, hnle, hfind, hnlt]

/-- Witness for claim C5: removal at quantity −1, rejection at quantity 10,
update at quantity 3, all on the one-line cart `cartA`. -/
theorem C5_setQuantity_behavior_witness :
    (updateCartItemQuantity cartA "p1" (-1) =
      (cartA.filter (fun it => it.productId != "p1"), false)) ∧
    (updateCartItemQuantity cartA "p1" 10 = (cartA, true)) ∧
    (updateCartItemQuantity cartA "p1" 3 =
      (cartA.map (fun it =>
        if it.productId == "p1" then
          { it with quantity := (3 : Int).toNat,
                    total := ((3 : Int) : ℚ) * it.unitPrice }
        else it), false)) :=
  ⟨(C5_setQuantity_behavior cartA "p1" (-1)).1 (by decide),
   ((C5_setQuantity_behavior cartA "p1" 10).2 itemA (by decide) (by decide)).1
     (by decide),
   ((C5_setQuantity_behavior cartA "p1" 3).2 itemA (by decide) (by decide)).2
     (by decide)⟩

/-- Claim C6 counterexample (refuting the universal quantification over
quantities): adding a stock-0 product with quantity 0 inserts a
zero-quantity line (the stock check `stock < quantity` is `0 < 0`, false),
so the cart changes and no warning is shown. -/
theorem C6_zero_stock_counterexample :
    (addToCart [] productZ 0).1 ≠ [] ∧ (addToCart [] productZ 0).2 = false := by
  decide

/-- Claim C6 (corrected, restricted to quantity ≥ 1): `add` warns and
leaves the cart unchanged when the quantity exceeds stock or when adding
to an existing line would exceed stock (in particular whenever the
product's stock is 0); otherwise it increments the existing line and
recomputes its total, or appends a new line. -/
theorem C6_add_behavior (cart : List CartItem) (p : Product) (quantity : ℕ)
    (hq : 1 ≤ quantity) :
    (p.stock < (quantity : Int) → addToCart cart p quantity = (cart, true)) ∧
    (∀ item, cart.find? (fun it => it.productId == p.id) = some item →
      (p.stock < ((item.quantity + quantity : ℕ) : Int) →
        addToCart cart p quantity = (cart, true)) ∧
      (((item.quantity + quantity : ℕ) : Int) ≤ p.stock →
        addToCart cart p quantity =
          (cart.map (fun it =>
            if it.productId == p.id then
              { it with quantity := item.quantity + quantity,
                        total := ((item.quantity + quantity : ℕ) : ℚ) * it.unitPrice }
            else it), false))) ∧
    (cart.find? (fun it => it.productId == p.id) = none →
      (quantity : Int) ≤ p.stock →
      addToCart cart p quantity =
        (cart ++ [{ productId := p.id, productName := p.name, quantity := quantity,
                    unitPrice := p.price, total := (quantity : ℚ) * p.price,
                    product := p }], false)) ∧
    (p.stock = 0 → addToCart cart p quantity = (cart, true)) := by
  refine ⟨?_, ?_, ?_, ?_⟩
  · intro h
    simp [addToCart, h]
  · intro item hfind
    constructor
    · intro hover
      by_cases h1 : p.stock < (quantity : Int)
      · simp [addToCart, h1]
      · simp [addToCart, h1, hfind, hover]
        push_cast at hover ⊢
        omega
    · intro hle
      have h1 : ¬ p.stock < (quantity : Int) := by
        push_cast at hle ⊢
        omega
      have h2 : ¬ p.stock < ((item.quantity + quantity : ℕ) : Int) := not_lt.mpr hle
      simp [addToCart, h1, hfind, h2]
      push_cast at hle ⊢
      omega
  · intro hfind hle
    have h1 : ¬ p.stock < (quantity : Int) := not_lt.mpr hle
    simp [addToCart, h1, hfind]
  · intro h0
    have hpos : p.stock < (quantity : Int) := by
      rw [h0]
      exact_mod_cast hq
    simp [addToCart, hpos]

/-- Witness for claim C6: on the one-line cart `cartA` (quantity 1, stock
5): adding 5 more is rejected, adding 2 increments the line, adding 2 of a
fresh product appends a line, and adding the stock-0 product is
rejected. -/
theorem C6_add_behavior_witness :
    (addToCart cartA productA 5 = (cartA, true)) ∧
    (addToCart cartA productA 2 =
      (cartA.map (fun it =>
        if it.productId == productA.id then
          { it with quantity := itemA.quantity + 2,
                    total := ((itemA.quantity + 2 : ℕ) : ℚ) * it.unitPrice }
        else it), false)) ∧
    (addToCart [] productA 2 =
      ([{ productId := productA.id, productName := productA.name, quantity := 2,
          unitPrice := productA.price, total := (2 : ℚ) * productA.price,
          product := productA }], false)) ∧
    (addToCart cartA productZ 1 = (cartA, true)) :=
  ⟨((C6_add_behavior cartA productA 5 (by decide)).2.1 itemA (by decide)).1
     (by decide),
   ((C6_add_behavior cartA productA 2 (by decide)).2.1 itemA (by decide)).2
     (by decide),
   (C6_add_behavior [] productA 2 (by decide)).2.2.1 (by decide) (by decide),
   (C6_add_behavior cartA productZ 1 (by decide)).2.2.2 (by decide)⟩

/-- In-place line updates preserve the list of product identifiers. -/
theorem map_productId_map (cart : List CartItem) (f : CartItem → CartItem)
    (hf : ∀ it, (f it).productId = it.productId) :
    (cart.map f).map (fun it => it.productId) = cart.map (fun it => it.productId) := by
  induction cart with
  | nil => rfl
  | cons it rest ih => simp [hf, ih]

/-- `addToCart` preserves the cart invariant. -/
theorem cartInv_addToCart (cart : List CartItem) (p : Product) (q : ℕ)
    (h : CartInv cart) : CartInv (addToCart cart p q).1 := by
  by_cases h1 : p.stock < (q : Int)
  · simpa [addToCart, h1] using h
  · cases hfind : cart.find? (fun item => item.productId == p.id) with
    | some item =>
      by_cases h2 : p.stock < ((item.quantity + q : ℕ) : Int)
      · simp only [addToCart, if_neg h1, hfind, if_pos h2]
        exact h
      · simp only [addToCart, if_neg h1, hfind, if_neg h2]
        constructor
        · rw [map_productId_map]
          · exact h.1
          · intro it
            cases hid : it.productId == p.id <;> simp [hid]
        · intro it' hmem
          rcases List.mem_map.mp hmem with ⟨x, hx, rfl⟩
          cases hid : x.productId == p.id with
          | false =>
            simp only [hid, Bool.false_eq_true, if_false]
            exact h.2 x hx
          | true => simp [hid]
    | none =>
      simp only [addToCart, if_neg h1, hfind]
      constructor
      · rw [List.map_append, List.nodup_append]
        refine ⟨h.1, by simp, ?_⟩
        intro a ha hb
        simp only [List.map_cons, List.map_nil, List.mem_singleton] at hb
        subst hb
        rcases List.mem_map.mp ha with ⟨x, hx, hxe⟩
        have hnp := List.find?_eq_none.mp hfind x hx
        simp only [beq_iff_eq] at hnp
        exact hnp hxe
      · intro it hmem
        rcases List.mem_append.mp hmem with hin | hin
        · exact h.2 it hin
        · simp only [List.mem_singleton] at hin
          subst hin
          rfl

/-- `removeFromCart` preserves the cart invariant. -/
theorem cartInv_removeFromCart (cart : List CartItem) (pid : String)
    (h : CartInv cart) : CartInv (removeFromCart cart pid) := by
  constructor
  · exact List.Nodup.sublist ((List.filter_sublist cart).map _) h.1
  · intro it hmem
    exact h.2 it (List.mem_of_mem_filter hmem)

/-- `updateCartItemQuantity` preserves the cart invariant. -/
theorem cartInv_updateCartItemQuantity (cart : List CartItem) (pid : String)
    (q : Int) (h : CartInv cart) :
    CartInv (updateCartItemQuantity cart pid q).1 := by
  by_cases h1 : q ≤ 0
  · simp only [updateCartItemQuantity, if_pos h1]
    exact cartInv_removeFromCart cart pid h
  · cases hfind : cart.find? (fun item => item.productId == pid) with
    | none => simpa [updateCartItemQuantity, h1, hfind] using h
    | some item =>
      by_cases h2 : item.product.stock < q
      · simpa [updateCartItemQuantity, h1, hfind, h2] using h
      · simp only [updateCartItemQuantity, if_neg h1, hfind, if_neg h2]
        constructor
        · rw [map_productId_map]
          · exact h.1
          · intro it
            cases hid : it.productId == pid <;> simp [hid]
        · intro it' hmem
          rcases List.mem_map.mp hmem with ⟨x, hx, rfl⟩
          cases hid : x.productId == pid with
          | false =>
            simp only [hid, Bool.false_eq_true, if_false]
            exact h.2 x hx
          | true =>
            simp only [hid, if_true]
            have h0 : (0 : Int) ≤ q := le_of_lt (lt_of_not_le h1)
            have hq : ((q.toNat : ℕ) : ℚ) = (q : ℚ) := by
              rw [← Int.cast_natCast (R := ℚ), Int.toNat_of_nonneg h0]
            simp [hq]

/-- Every cart mutation preserves the cart invariant. -/
theorem cartInv_applyOp (cart : List CartItem) (op : CartOp)
    (h : CartInv cart) : CartInv (applyOp cart op) := by
  cases op with
  | add p q => exact cartInv_addToCart cart p q h
  | setQty pid q => exact cartInv_updateCartItemQuantity cart pid q h
  | remove pid => exact cartInv_removeFromCart cart pid h
  | clear =>
    exact ⟨List.nodup_nil, fun it hmem => absurd hmem (List.not_mem_nil it)⟩

/-- Claim C9 (confirmed): from the empty cart, any sequence of `add`,
`setQuantity`, `remove` and `clear` operations keeps at most one line per
product identifier and keeps every line's total equal to its quantity
times its unit-price snapshot. -/
theorem C9_cart_invariant (ops : List CartOp) : CartInv (runOps [] ops) := by
  have gen : ∀ (l : List CartOp) (cart : List CartItem),
      CartInv cart → CartInv (runOps cart l) := by
    intro l
    induction l with
    | nil => intro cart h; exact h
    | cons op rest ih =>
      intro cart h
      exact ih (applyOp cart op) (cartInv_applyOp cart op h)
  exact gen ops []
    ⟨List.nodup_nil, fun it hmem => absurd hmem (List.not_mem_nil it)⟩

/-- Claim C8 (confirmed): for the cart `[2 × p1 at 8.50, 1 × p2 at 3.20]`,
`calculateTotal` returns 20.20 (= 101/5); after `finalizeSale` with payment
`dinheiro` (cash) a sale with total 20.20 and exactly two sale items is
persisted (here through the fallback store), and p1's stock decreases by 2
while p2's decreases by 1. -/
theorem C8_concrete_sale :
    calculateTotal cartC8 = 101 / 5 ∧
    finalizeC8.fs.sales.map (fun s => s.total) = [101 / 5] ∧
    finalizeC8.fs.saleItems.length = 2 ∧
    stockOf finalizeC8.client.products "p1" = stockOf [p1W, p2W] "p1" - 2 ∧
    stockOf finalizeC8.client.products "p2" = stockOf [p1W, p2W] "p2" - 1 := by
  refine ⟨?_, ?_, ?_, ?_, ?_⟩
  · norm_num [calculateTotal, cartC8, List.foldl_cons, List.foldl_nil]
  · have hsales : finalizeC8.fs.sales =
        [mkSale "b1" "u1" "s1" "t0" (cartToReq cartC8 "dinheiro")] := by
      simp [finalizeC8, finalizeSale, clientC8, postSale, cartToReq, safeQuery,
        fallbackCreateSale, emptyStore, cartC8]
    rw [hsales]
    norm_num [mkSale, computeTotal, cartToReq, cartC8,
      List.foldl_cons, List.foldl_nil, List.map_cons, List.map_nil]
  · decide
  · decide
  · decide

/-- Claim C1 counterexample: with the pool handle present and the sale
transaction's first statement throwing, the persistent store is indeed
left unchanged (rollback), but the sale IS visible to a subsequent
fallback read for the same tenant, the client's cart is cleared rather
than left unchanged (the handler answers 201), and a stock movement is
recorded — contradicting the claim that nothing from the request is
visible and the cart is unchanged. -/
theorem C1_fallback_visible_counterexample :
    finalizeAThrow.ps = emptyStore ∧
    (listSalesFallback "b1" finalizeAThrow.fs).map (fun pr => pr.1.id) = ["s1"] ∧
    finalizeAThrow.client.cart = [] ∧
    finalizeAThrow.client.movements ≠ [] := by
  decide

/-- Claim C1 (corrected): if the persistent store throws during the sale
transaction, the transaction is rolled back — nothing becomes visible
through the persistent store — but `safeQuery` catches the error and
re-executes the write against the fallback store, so the Sale and its
SaleItems are visible to subsequent fallback reads; the handler still
answers 201, and the client, seeing success, clears its cart. -/
theorem C1_throw_falls_back (cs : ClientState) (pm : String) (i : ℕ)
    (businessId userId saleId now : String) (ps fs : Store)
    (hcart : cs.cart ≠ [])
    (hfail : i < 1 + cs.cart.length) :
    (finalizeSale cs pm true (some i) businessId userId saleId now ps fs).ps = ps ∧
    (finalizeSale cs pm true (some i) businessId userId saleId now ps fs).fs =
      fallbackCreateSale
        (mkSale businessId userId saleId now (cartToReq cs.cart pm))
        (mkSaleItems saleId (cartToReq cs.cart pm).items) fs ∧
    (finalizeSale cs pm true (some i) businessId userId saleId now
        ps fs).client.cart = [] := by
  have hne : cs.cart.isEmpty = false := by
    cases hc : cs.cart with
    | nil => exact absurd hc hcart
    | cons a l => rfl
  have hreqne : (cartToReq cs.cart pm).items.isEmpty = false := by
    cases hc : cs.cart with
    | nil => exact absurd hc hcart
    | cons a l => simp [cartToReq, hc]
  have hlen : i < (saleStatements
      (mkSale businessId userId saleId now (cartToReq cs.cart pm))
      (mkSaleItems saleId (cartToReq cs.cart pm).items)).length := by
    simp [saleStatements, mkSaleItems, cartToReq]
    omega
  have htx := transaction_withFailure_some
    (saleStatements (mkSale businessId userId saleId now (cartToReq cs.cart pm))
      (mkSaleItems saleId (cartToReq cs.cart pm).items)) i ps hlen
  refine ⟨?_, ?_, ?_⟩ <;>
    simp [finalizeSale, hne, postSale, hreqne, safeQuery, htx]

/-- Witness for claim C1: finalizing the one-line cart `cartA` while the
transaction's first statement throws. -/
theorem C1_throw_falls_back_witness :
    (finalizeSale clientA "dinheiro" true (some 0) "b1" "u1" "s1" "t0"
        emptyStore emptyStore).ps = emptyStore ∧
    (finalizeSale clientA "dinheiro" true (some 0) "b1" "u1" "s1" "t0"
        emptyStore emptyStore).fs =
      fallbackCreateSale
        (mkSale "b1" "u1" "s1" "t0" (cartToReq clientA.cart "dinheiro"))
        (mkSaleItems "s1" (cartToReq clientA.cart "dinheiro").items) emptyStore ∧
    (finalizeSale clientA "dinheiro" true (some 0) "b1" "u1" "s1" "t0"
        emptyStore emptyStore).client.cart = [] :=
  C1_throw_falls_back clientA "dinheiro" 0 "b1" "u1" "s1" "t0"
    emptyStore emptyStore (by decide) (by decide)

end Sucesso
